import Mathlib

/-!
Verification of the 8-K text-corpora builder (file 8K_corpus_builder.py).

The development shallowly embeds the pure logic of the script:

* a model of the Python 2 regular-expression engine restricted to the
  feature set used by the script (single-character classes with greedy
  counted quantifiers, alternations of literal words, anchors with the
  IGNORECASE / MULTILINE / DOTALL flags), with Python leftmost-greedy
  match priority;
* the regex battery and block filter of clean_text_helper / clean_text;
* the exhibit locator er_generator;
* the filename discovery filter of filelistings with FILENAME_PATTERN;
* the return classifier classify (its sentiment mapping and its
  pct_change / cumprod computation over a resolved window of closes);
* the idempotence guard is_parsed together with get_parsed_filename,
  over an abstract file-existence predicate.

Strings are modelled as Lean strings; the regex engine works on the
underlying character lists.  Python float arithmetic in clean_text is
modelled over the rationals.
-/

/-- Character classes appearing in the regex patterns of the script.
The script compiles Python 2 byte-string patterns without re.UNICODE,
so the classes have their ASCII meaning. -/
inductive CharCls
  | any
  | anyNoNL
  | word
  | nonWord
  | digit
  | nonDigit
  | space
  | nonSpace
  | one (c : Char)
  | oneCI (c : Char)
  | upperCI
  | digitsUpper
  deriving Repr, DecidableEq

/-- Code point of a character with ASCII upper case folded to lower case,
used for IGNORECASE comparisons. -/
def lowerNat (c : Char) : Nat :=
  if 65 ≤ c.toNat && c.toNat ≤ 90 then c.toNat + 32 else c.toNat

/-- ASCII lower-casing of one character. -/
def toLowerChar (c : Char) : Char :=
  if 65 ≤ c.toNat && c.toNat ≤ 90 then Char.ofNat (c.toNat + 32) else c

def isLowerChar (c : Char) : Bool := 97 ≤ c.toNat && c.toNat ≤ 122

def isUpperChar (c : Char) : Bool := 65 ≤ c.toNat && c.toNat ≤ 90

def isDigitChar (c : Char) : Bool := 48 ≤ c.toNat && c.toNat ≤ 57

/-- Python re whitespace for byte strings: space, tab, newline, carriage
return, vertical tab, form feed. -/
def isSpaceChar (c : Char) : Bool :=
  c.toNat == 32 || c.toNat == 9 || c.toNat == 10 ||
  c.toNat == 13 || c.toNat == 11 || c.toNat == 12

def isWordChar (c : Char) : Bool :=
  isLowerChar c || isUpperChar c || isDigitChar c || c == '_'

/-- Whether a character belongs to a character class. -/
def matchesCC : CharCls → Char → Bool
  | .any, _ => true
  | .anyNoNL, c => c != '\n'
  | .word, c => isWordChar c
  | .nonWord, c => !(isWordChar c)
  | .digit, c => isDigitChar c
  | .nonDigit, c => !(isDigitChar c)
  | .space, c => isSpaceChar c
  | .nonSpace, c => !(isSpaceChar c)
  | .one ch, c => c == ch
  | .oneCI ch, c => lowerNat c == lowerNat ch
  | .upperCI, c => isUpperChar c || isLowerChar c
  | .digitsUpper, c => isDigitChar c || isUpperChar c

/-- One item of a compiled pattern.  The patterns of the script only ever
apply quantifiers to single-character classes and only ever alternate
literal words, so a pattern is a plain sequence of such items.

For a class item, lo and hi are the remaining minimum and optional
maximum repetition counts, and cap optionally carries a capture-group
index with the characters consumed so far for that group (in reverse). -/
inductive RItem
  | cls (c : CharCls) (lo : Nat) (hi : Option Nat) (cap : Option (Nat × List Char))
  | startAnchor (ml : Bool)
  | endAnchor (ml : Bool)
  | alt (ws : List (List Char)) (ci : Bool)
  deriving Repr, DecidableEq

/-- Match the start anchor: position zero, or just after a newline when
the pattern is MULTILINE.  prev is the character before the current
position, when there is one. -/
def startOk (ml : Bool) (prev : Option Char) : Bool :=
  match prev with
  | none => true
  | some c => ml && (c == '\n')

/-- Match the end anchor: end of input, before any newline when
MULTILINE, and otherwise also before a single trailing newline. -/
def endOk (ml : Bool) (s : List Char) : Bool :=
  match s with
  | [] => true
  | c :: s2 => if ml then c == '\n' else (c == '\n' && s2.isEmpty)

/-- Compare two characters, case-insensitively when ci is set. -/
def charEq (ci : Bool) (a b : Char) : Bool :=
  if ci then lowerNat a == lowerNat b else a == b

/-- Strip a literal word from the front of the input, if present. -/
def stripPre (ci : Bool) : List Char → List Char → Option (List Char)
  | [], s => some s
  | _ :: _, [] => none
  | w :: ws, c :: s => if charEq ci w c then stripPre ci ws s else none

/-- Last character of chunk, defaulting to prev when chunk is empty. -/
def newPrev (prev : Option Char) (chunk : List Char) : Option Char :=
  match chunk.getLast? with
  | some c => some c
  | none => prev

/-- Option alternative with left preference. -/
def orElseO {α : Type} (a b : Option α) : Option α :=
  match a with
  | some x => some x
  | none => b

/-- Push one consumed character onto a pending capture group. -/
def capPush : Option (Nat × List Char) → Char → Option (Nat × List Char)
  | none, _ => none
  | some (g, acc), ch => some (g, ch :: acc)

/-- Emit a finished capture group onto a match result. -/
def emitCap : Option (Nat × List Char) →
    (List (Nat × List Char) × List Char) → (List (Nat × List Char) × List Char)
  | none, r => r
  | some (g, acc), (caps, rst) => ((g, acc.reverse) :: caps, rst)

/-- Fuel budget of one pattern item for the depth-bounded matcher. -/
def itemBudget : RItem → Nat
  | .alt ws _ => ws.length + 1
  | _ => 1

/-- Fuel sufficient for any single match attempt of pattern p on input s:
every recursive call either consumes an input character, consumes one
alternative of an alternation, or discharges an item. -/
def fuelFor (p : List RItem) (s : List Char) : Nat :=
  (p.map itemBudget).sum + s.length + 2

/-- Depth-fueled backtracking matcher with Python match priority: a
greedy quantifier prefers consuming one more character over finishing,
and an alternation tries its words left to right.  Matching a pattern
at the current position returns the captures and the remaining suffix
of the first match in that priority order, exactly as Python re does
for the pattern fragment used by the script. -/
def matchItems : Nat → List RItem → Option Char → List Char →
    Option (List (Nat × List Char) × List Char)
  | 0, _, _, _ => none
  | _ + 1, [], _, s => some ([], s)
  | fuel + 1, RItem.startAnchor ml :: rest, prev, s =>
      if startOk ml prev then matchItems fuel rest prev s else none
  | fuel + 1, RItem.endAnchor ml :: rest, prev, s =>
      if endOk ml s then matchItems fuel rest prev s else none
  | _ + 1, RItem.alt [] _ :: _, _, _ => none
  | fuel + 1, RItem.alt (w :: ws) ci :: rest, prev, s =>
      orElseO
        (match stripPre ci w s with
          | some s2 => matchItems fuel rest (newPrev prev (List.take w.length s)) s2
          | none => none)
        (matchItems fuel (RItem.alt ws ci :: rest) prev s)
  | fuel + 1, RItem.cls c lo hi cap :: rest, prev, s =>
      orElseO
        (match s, hi with
          | ch :: s2, some (h + 1) =>
              if matchesCC c ch then
                matchItems fuel (RItem.cls c (lo - 1) (some h) (capPush cap ch) :: rest)
                  (some ch) s2
              else none
          | ch :: s2, none =>
              if matchesCC c ch then
                matchItems fuel (RItem.cls c (lo - 1) none (capPush cap ch) :: rest)
                  (some ch) s2
              else none
          | _, _ => none)
        (if lo = 0 then Option.map (emitCap cap) (matchItems fuel rest prev s) else none)

/-- Match a pattern at a fixed position, given the preceding character. -/
def matchAtL (p : List RItem) (prev : Option Char) (s : List Char) :
    Option (List (Nat × List Char) × List Char) :=
  matchItems (fuelFor p s) p prev s

/-- Leftmost search, as Python re.search: try each position in order. -/
def searchAuxL (p : List RItem) : Option Char → List Char → Bool
  | prev, [] => (matchAtL p prev []).isSome
  | prev, c :: s => (matchAtL p prev (c :: s)).isSome || searchAuxL p (some c) s

/-- Python re.search on a string, as a Boolean. -/
def pySearch (p : List RItem) (s : String) : Bool :=
  searchAuxL p none s.data

/-- Python re.match on a string: anchored at position zero only. -/
def pyMatchL (p : List RItem) (s : List Char) :
    Option (List (Nat × List Char) × List Char) :=
  matchItems (fuelFor p s) p none s

/-- Python re.sub with empty replacement: repeatedly remove the leftmost
match, resuming right after it; on an empty match, emit one character
and advance.  Anchors keep referring to the original string via the
threaded previous character. -/
def pySubAuxL : Nat → List RItem → Option Char → List Char → List Char
  | 0, _, _, s => s
  | fuel + 1, p, prev, s =>
      match matchAtL p prev s with
      | some r =>
          if s.length - r.2.length = 0 then
            match s with
            | [] => []
            | c :: s2 => c :: pySubAuxL fuel p (some c) s2
          else pySubAuxL fuel p (newPrev prev (List.take (s.length - r.2.length) s)) r.2
      | none =>
          match s with
          | [] => []
          | c :: s2 => c :: pySubAuxL fuel p (some c) s2

/-- Python re.sub of a pattern by the empty string over a whole input. -/
def pySubL (p : List RItem) (s : List Char) : List Char :=
  pySubAuxL (s.length + 1) p none s

/-- Compile a literal word: one case-insensitive character item per char. -/
def litCI (w : String) : List RItem :=
  w.data.map (fun c => RItem.cls (.oneCI c) 1 (some 1) none)

/-- Case-insensitive alternation of literal words. -/
def altCI (ws : List String) : RItem :=
  RItem.alt (ws.map String.data) true

example : pySearch (litCI "ab") "xAby" = true := by decide

example : pySearch (litCI "ab") "xAy" = false := by decide

example :
    pySubL [RItem.cls .anyNoNL 1 none none] ("ab").data = [] := by decide

/-! ### The regex battery of clean_text_helper

Each definition below is the translation of one entry of the PATTERNS
dict, compiled with flags re.I, re.M and re.S unless noted otherwise.
With re.S the dot matches any character including newline; with re.M
the anchors also match around inner newlines. -/

/-- Pattern item shorthand: greedy dot-star under re.S. -/
def starAny : RItem := RItem.cls .any 0 none none

/-- Pattern item shorthand: greedy dot-plus under re.S. -/
def plusAny : RItem := RItem.cls .any 1 none none

/-- ACCOUNTING pattern. -/
def P_ACCOUNTING : List RItem :=
  [RItem.startAnchor true, plusAny] ++ litCI "accordance with" ++ [plusAny] ++
  [altCI ["generally accepted", "GAAP"]] ++ [plusAny, RItem.endAnchor true]

/-- FORWARD-LOOKING pattern. -/
def P_FORWARD_LOOKING : List RItem :=
  [RItem.startAnchor true, RItem.cls .space 0 none none, starAny] ++
  litCI "forward-looking" ++ [plusAny] ++ litCI "statement" ++
  [starAny, RItem.endAnchor true]

/-- CAUTIONARY-STATEMENT pattern. -/
def P_CAUTIONARY : List RItem :=
  [RItem.startAnchor true, RItem.cls .space 0 none none, starAny] ++
  litCI "cautionary" ++ [plusAny] ++ litCI "statement" ++
  [starAny, RItem.endAnchor true]

/-- CONFERENCE CALL pattern. -/
def P_CONFERENCE_CALL : List RItem :=
  [RItem.startAnchor true, RItem.cls .space 0 none none, starAny] ++
  litCI "conference call" ++ [starAny, RItem.endAnchor true]

/-- LIVE WEBCAST pattern. -/
def P_LIVE_WEBCAST : List RItem :=
  [RItem.startAnchor true, plusAny] ++ litCI "live webcast" ++
  [plusAny, RItem.endAnchor true]

/-- COMPANY INFO1 pattern. -/
def P_COMPANY_INFO1 : List RItem :=
  [RItem.startAnchor true, plusAny] ++ litCI " is" ++ [plusAny] ++
  [altCI ["a", "an", "the"]] ++ [plusAny] ++ litCI "under" ++ [plusAny] ++
  litCI "the" ++ [plusAny] ++ litCI "symbol " ++
  [RItem.cls .upperCI 1 none none, RItem.cls .any 1 (some 1) none,
   RItem.endAnchor true]

/-- COMPANY INFO2 pattern. -/
def P_COMPANY_INFO2 : List RItem :=
  [RItem.startAnchor true, plusAny] ++ litCI "founded" ++ [plusAny] ++
  litCI "is " ++ [altCI ["a", "an", "the"]]

/-- COMPANY INFO3 pattern. -/
def P_COMPANY_INFO3 : List RItem :=
  [RItem.startAnchor true] ++ litCI "Founded" ++ [plusAny] ++ litCI "is"

/-- COMPANY INFO4 pattern. -/
def P_COMPANY_INFO4 : List RItem :=
  [plusAny, altCI ["additional", "more"], plusAny] ++ litCI "information" ++
  [plusAny]

/-- COMPANY INFO5 pattern. -/
def P_COMPANY_INFO5 : List RItem :=
  [RItem.startAnchor true, plusAny] ++ litCI " is " ++
  [altCI ["a", "an", "the"], plusAny] ++ litCI "company" ++ [plusAny]

/-- COMPANY CONTACT2 pattern, a phone-number shape. -/
def P_COMPANY_CONTACT2 : List RItem :=
  [plusAny, RItem.cls .digit 1 (some 1) none, RItem.cls .nonDigit 0 none none,
   RItem.cls .digit 3 (some 3) none, RItem.cls .nonDigit 0 none none,
   RItem.cls .digit 3 (some 3) none, RItem.cls .nonDigit 0 none none,
   RItem.cls .digit 4 (some 4) none, RItem.cls .nonDigit 0 none none, plusAny]

/-- TABLE HEADER1 pattern; the only battery entry compiled with no flags. -/
def P_TABLE_HEADER1 : List RItem :=
  [RItem.startAnchor false, RItem.cls (.one '(') 1 (some 1) none,
   RItem.cls .digitsUpper 1 none none, RItem.cls (.one ')') 1 (some 1) none,
   RItem.endAnchor false]

/-- TABLE HEADER2 pattern. -/
def P_TABLE_HEADER2 : List RItem :=
  [RItem.cls .nonDigit 1 none none, starAny] ++ litCI "in" ++
  [RItem.cls .space 1 none none] ++ litCI "millions" ++
  [RItem.cls .nonDigit 0 none none, starAny, RItem.cls .nonDigit 1 none none,
   RItem.endAnchor true]

/-- TABLE HEADER3 pattern. -/
def P_TABLE_HEADER3 : List RItem :=
  [RItem.cls .nonDigit 1 none none, starAny] ++ litCI "in" ++
  [RItem.cls .space 1 none none] ++ litCI "thousands" ++
  [RItem.cls .nonDigit 0 none none, starAny, RItem.cls .nonDigit 1 none none,
   RItem.endAnchor true]

/-- TABLE HEADER4 pattern. -/
def P_TABLE_HEADER4 : List RItem :=
  [RItem.cls .nonDigit 1 none none, starAny] ++ litCI "unaudited" ++
  [starAny, RItem.cls .nonDigit 1 none none, RItem.endAnchor true]

/-- ABOUT HEADER pattern. -/
def P_ABOUT_HEADER : List RItem :=
  [RItem.startAnchor true] ++ litCI "ABOUT " ++ [plusAny]

/-- NOTES pattern. -/
def P_NOTES : List RItem :=
  [RItem.startAnchor true] ++ litCI "note" ++
  [RItem.cls .word 0 (some 2) none, RItem.cls .nonDigit 0 none none, plusAny]

/-- EXHIBIT pattern. -/
def P_EXHIBIT : List RItem :=
  [starAny] ++ litCI "Exhibit" ++
  [RItem.cls .space 0 none none, RItem.cls .nonWord 0 none none] ++
  litCI "99" ++ [starAny]

/-- FOOTNOTES pattern. -/
def P_FOOTNOTES : List RItem :=
  [RItem.startAnchor true, RItem.cls .space 0 none none,
   RItem.cls (.one '(') 1 (some 1) none, RItem.cls .digit 1 none none,
   RItem.cls (.one ')') 1 (some 1) none, RItem.cls .space 0 none none, plusAny]

/-- TRADEMARKS1 pattern. -/
def P_TRADEMARKS1 : List RItem :=
  [plusAny] ++ litCI "registered trademark" ++ [plusAny]

/-- TRADEMARKS2 pattern. -/
def P_TRADEMARKS2 : List RItem :=
  [plusAny] ++ litCI "trademark" ++ [plusAny] ++ litCI "of" ++ [plusAny]

/-- PAGE NUMBERS1 pattern. -/
def P_PAGE_NUMBERS1 : List RItem :=
  [RItem.startAnchor true, RItem.cls .space 0 none none,
   RItem.cls .nonDigit 0 none none, RItem.cls .digit 1 none none,
   RItem.cls .nonDigit 0 none none, RItem.cls .space 0 none none,
   RItem.endAnchor true]

/-- PAGE NUMBERS2 pattern. -/
def P_PAGE_NUMBERS2 : List RItem :=
  [RItem.cls .space 0 none none] ++ litCI "page" ++
  [RItem.cls .space 0 none none, RItem.cls .digit 1 none none,
   RItem.cls .space 0 none none, RItem.cls .word 0 none none,
   RItem.cls .digit 0 none none, plusAny]

/-- RELEASE NOTE1 pattern. -/
def P_RELEASE_NOTE1 : List RItem :=
  [RItem.startAnchor true] ++ litCI "this" ++ [plusAny] ++ litCI "press" ++
  [plusAny] ++ litCI "release" ++ [plusAny]

/-- RELEASE NOTE2 pattern. -/
def P_RELEASE_NOTE2 : List RItem :=
  [plusAny] ++ litCI "securities" ++ [plusAny] ++ litCI "act" ++ [plusAny] ++
  litCI "of" ++ [plusAny]

/-- COPYRIGHTS pattern. -/
def P_COPYRIGHTS : List RItem :=
  [plusAny] ++ litCI "copyright" ++ [plusAny] ++ litCI "all rights reserved" ++
  [RItem.cls .any 1 (some 1) none]

/-- The PATTERNS battery of clean_text_helper, in source order. -/
def PATTERNS : List (List RItem) :=
  [P_ACCOUNTING, P_FORWARD_LOOKING, P_CAUTIONARY, P_CONFERENCE_CALL,
   P_LIVE_WEBCAST, P_COMPANY_INFO1, P_COMPANY_INFO2, P_COMPANY_INFO3,
   P_COMPANY_INFO4, P_COMPANY_INFO5, P_COMPANY_CONTACT2, P_TABLE_HEADER1,
   P_TABLE_HEADER2, P_TABLE_HEADER3, P_TABLE_HEADER4, P_ABOUT_HEADER,
   P_NOTES, P_EXHIBIT, P_FOOTNOTES, P_TRADEMARKS1, P_TRADEMARKS2,
   P_PAGE_NUMBERS1, P_PAGE_NUMBERS2, P_RELEASE_NOTE1, P_RELEASE_NOTE2,
   P_COPYRIGHTS]

/-- clean_text_helper: a block passes the filter exactly when, for every
pattern of the battery, substituting all of its matches by the empty
string leaves a nonempty string.  This mirrors Python
all(map(lambda p: len(re.sub(p, empty, text)), PATTERNS.values())),
where the integer lengths are used for their truthiness. -/
def clean_text_helper (text : List Char) : Bool :=
  (PATTERNS.map (fun p => (pySubL p text).length)).all (fun n => n != 0)

/-- Split on occurrences of one blank line, that is on the literal
two-newline separator, leftmost first, as re.split does for this
pattern. -/
def splitBlocksAux : List Char → List Char → List (List Char)
  | acc, '\n' :: '\n' :: rest => acc.reverse :: splitBlocksAux [] rest
  | acc, c :: rest => splitBlocksAux (c :: acc) rest
  | acc, [] => [acc.reverse]

/-- The blocks of a text, split on blank-line boundaries. -/
def splitBlocks (s : List Char) : List (List Char) :=
  splitBlocksAux [] s

/-- Rejoin blocks with blank-line separators. -/
def joinBlocks : List (List Char) → List Char
  | [] => []
  | [b] => b
  | b :: bs => b ++ '\n' :: '\n' :: joinBlocks bs

/-- The default trim_limit of clean_text, five percent. -/
def trim_limit : ℚ := 5 / 100

/-- The candidate cleaned text built inside clean_text: the blocks of
the input that pass clean_text_helper, rejoined with blank lines. -/
def cleaned_blocks (er : String) : List Char :=
  joinBlocks ((splitBlocks er.data).filter (fun b => clean_text_helper b))

/-- clean_text: split the input on blank lines, keep the blocks accepted
by clean_text_helper, rejoin them, and return the result unless it
retains less than trim_limit of the input length, in which case the
original input is returned unchanged.  On the empty input the Python
code raises ZeroDivisionError at the length ratio, modelled as none. -/
def clean_text (er : String) : Option String :=
  if er.data.length = 0 then none
  else
    some (if trim_limit ≤ ((cleaned_blocks er).length : ℚ) / (er.data.length : ℚ)
          then String.mk (cleaned_blocks er) else er)

/-! ### Exhibit locator -/

/-- Whether needle occurs at the start of hay, case-sensitively. -/
def hasPre (needle hay : List Char) : Bool :=
  (stripPre false needle hay).isSome

/-- Whether needle occurs anywhere in hay, the Python in operator. -/
def containsL (needle : List Char) : List Char → Bool
  | [] => hasPre needle []
  | c :: rest => hasPre needle (c :: rest) || containsL needle rest

/-- The Python membership test sub in line on strings. -/
def containsStr (line sub : String) : Bool :=
  containsL sub.data line.data

/-- The fallback earnings-announcement pattern of er_generator, compiled
with re.I and re.M. -/
def ER_PATTERN : List RItem :=
  [RItem.cls .anyNoNL 1 none none,
   altCI ["announces", "reports", "accounced", "reported"],
   RItem.cls .anyNoNL 1 none none,
   altCI ["quarter"],
   RItem.cls .anyNoNL 1 none none]

/-- re.search of the fallback pattern on one line. -/
def erSearch (line : String) : Bool :=
  pySearch ER_PATTERN line

/-- One pass of er_generator over the remaining lines, carrying the two
state flags start_marker_found and return_line of the source. -/
def erGenAux : Bool → Bool → List String → List String
  | _, _, [] => []
  | started, emitting, l :: ls =>
      let started1 :=
        if !started && containsStr l "<TYPE>EX-99" then true else started
      let emitting1 :=
        if !started && !(containsStr l "<TYPE>EX-99") && erSearch l then true
        else emitting
      let emitting2 :=
        if started1 && containsStr l "<TEXT>" then true else emitting1
      (if emitting2 then [l] else []) ++
        (if containsStr l "</TEXT>" && started1 then []
         else erGenAux started1 emitting2 ls)

/-- er_generator: the lines yielded for a filing given as a line list. -/
def er_generator (lines : List String) : List String :=
  erGenAux false false lines

/-! ### Filename discovery -/

/-- FILENAME_PATTERN, compiled with re.IGNORECASE: a word group, a dash,
a free-form group, and the literal -8-K.txt, with the two capture
groups recorded. -/
def FILENAME_PATTERN : List RItem :=
  [RItem.cls .word 1 none (some (1, [])),
   RItem.cls (.oneCI '-') 1 (some 1) none,
   RItem.cls .anyNoNL 1 none (some (2, []))] ++ litCI "-8-K.txt"

/-- Look up one capture group of a match result. -/
def capGet (caps : List (Nat × List Char)) (g : Nat) : List Char :=
  match caps.find? (fun x => x.fst == g) with
  | some x => x.snd
  | none => []

/-- The per-file acceptance and parsing step of filelistings: the name
must contain the case-sensitive substring 8-K.txt, and then re.match of
FILENAME_PATTERN against the name must succeed, in which case the two
groups give the symbol and the free-form date string. -/
def filelistings_entry (name : String) : Option (String × String) :=
  if containsStr name "8-K.txt" then
    match pyMatchL FILENAME_PATTERN name.data with
    | some r => some (String.mk (capGet r.1 1), String.mk (capGet r.1 2))
    | none => none
  else none

/-- The acceptance criterion in the words of the specification: the
name ends with the suffix -8-K.txt matched case-insensitively.  Stated
for comparison with filelistings_entry; it is not the code criterion. -/
def spec_suffix_accepts (name : String) : Bool :=
  (stripPre false ("-8-K.txt".data.map toLowerChar).reverse
    ((name.data.map toLowerChar).reverse)).isSome

/-! ### Return classifier -/

/-- The sentiment mapping at the end of classify: for three classes,
neg when the cumulative return is below minus the limit, pos when above
the limit, else neut; for two classes, neg when below the limit, else
pos.  Any other class count fails the assert of the source, modelled as
none. -/
def classify_sentiment (num_classes : Nat) (cum_returns limit : ℚ) : Option String :=
  if num_classes = 3 then
    some (if cum_returns < -1 * limit then "neg"
          else if cum_returns > limit then "pos" else "neut")
  else if num_classes = 2 then
    some (if cum_returns < limit then "neg" else "pos")
  else none

/-- pandas pct_change on the resolved window of closes: the simple
period return between each pair of consecutive closes.  The leading
not-a-number entry of pandas is omitted here; the skipna cumprod of the
source ignores it. -/
def pct_change (ps : List ℚ) : List ℚ :=
  List.zipWith (fun a b => b / a - 1) ps ps.tail

/-- The cumulative compounded return of classify: the last entry of the
cumulative product of one plus each period return, minus one. -/
def cum_return (ps : List ℚ) : ℚ :=
  ((pct_change ps).map (fun r => 1 + r)).prod - 1

/-- classify on a fully resolved window of closing prices. -/
def classify (ps : List ℚ) (num_classes : Nat) (limit : ℚ) : Option String :=
  classify_sentiment num_classes (cum_return ps) limit

/-- The TIMESPAN constant of the source: the return window in business
days. -/
def TIMESPAN : Nat := 10

/-- The LIMIT constant of the source: the classification boundary. -/
def LIMIT : ℚ := 5 / 100

/-! ### Orchestrator guard -/

/-- get_parsed_filename, with the timestamp already rendered as its
YYYY-MM-DD date string. -/
def get_parsed_filename (symbol date : String) : String :=
  symbol ++ "-" ++ date ++ ".txt"

/-- The corpus entry path for a class label, os.path.join with slashes. -/
def corpus_entry_path (corpora label name : String) : String :=
  corpora ++ "/" ++ label ++ "/" ++ name

/-- is_parsed over an abstract file-existence predicate: the entry is
considered already parsed when its file exists under the neg or the pos
subdirectory of the corpus root. -/
def is_parsed (fsExists : String → Bool) (corpora name : String) : Bool :=
  fsExists (corpus_entry_path corpora "neg" name) ||
  fsExists (corpus_entry_path corpora "pos" name)

/-- The guard step of parser_dir for one filing: the filing is processed
exactly when is_parsed does not hold for its parsed filename. -/
def parser_dir_processes (fsExists : String → Bool)
    (corpora symbol date : String) : Bool :=
  !(is_parsed fsExists corpora (get_parsed_filename symbol date))

/-- A file system in which exactly one corpus entry exists: the entry of
the filing ABC of 2013-01-15, under the neut class-label directory. -/
def neut_exists_fs : String → Bool :=
  fun p => p == corpus_entry_path "corpra/10" "neut" (get_parsed_filename "ABC" "2013-01-15")

/-! ### Validation of the regex model against the engine of the source

The following examples reproduce, on concrete inputs, the observable
behaviour of the Python regex engine for the patterns of the script. -/

example : clean_text_helper ("(A)\n").data = true := by decide

example : pySearch P_TABLE_HEADER1 "(A)\n" = true := by decide

example : clean_text_helper ("Founded X is Y").data = true := by decide

example : clean_text_helper ("hello").data = true := by decide

example : clean_text_helper ("").data = false := by decide

example : clean_text_helper ("This press release is great").data = false := by decide

example : clean_text_helper ("page 3").data = false := by decide

example : clean_text_helper ("  42  ").data = false := by decide

example : clean_text_helper ("ABOUT ACME").data = false := by decide

example : clean_text_helper ("note12 things").data = false := by decide

example : clean_text_helper ("Exhibit 99.1 attached").data = false := by decide

example : clean_text_helper ("unaudited results shown").data = true := by decide

example : clean_text_helper ("in millions of dollars").data = true := by decide

example : filelistings_entry "ABC-2013-01-15-8-K.txt" = some ("ABC", "2013-01-15") := by decide

example : filelistings_entry "ABC-2013-8-K.txt.bak" = some ("ABC", "2013") := by decide

example : filelistings_entry "ABC-2013-01-15-8-k.TXT" = none := by decide

example : filelistings_entry "ABC-2013-01-15.txt" = none := by decide

example : erSearch "x announces a quarter y" = true := by decide

example : erSearch "announces quarter" = false := by decide

example : splitBlocks ("a\n\n\nb").data = [['a'], ['\n', 'b']] := by decide

/-! ### Theorems for the claims -/

/-- C4: with two classes, classify returns the negative label exactly
when the cumulative return is below the limit, and the positive label
otherwise; in particular 0.04 against limit 0.05 is negative and 0.06
is positive. -/
theorem classify_two_class_boundary (cum limit : ℚ) :
    ((classify_sentiment 2 cum limit = some "neg") ↔ cum < limit) ∧
    ((classify_sentiment 2 cum limit = some "pos") ↔ ¬cum < limit) ∧
    classify_sentiment 2 (4 / 100) (5 / 100) = some "neg" ∧
    classify_sentiment 2 (6 / 100) (5 / 100) = some "pos" := by
  refine ⟨?_, ?_, by norm_num [classify_sentiment], by norm_num [classify_sentiment]⟩ <;>
    · by_cases hc : cum < limit <;>
        simp [classify_sentiment, hc]

/-- C5 counterexample: for a negative limit the three-class mapping does
not return the positive label whenever the cumulative return exceeds
the limit; at cumReturn zero and limit minus one the code returns neg
although 0 exceeds the limit. -/
theorem classify_three_class_negative_limit :
    classify_sentiment 3 0 (-1) = some "neg" ∧ ((0 : ℚ) > -1) ∧
    classify_sentiment 3 0 (-1) ≠ some "pos" := by
  refine ⟨by norm_num [classify_sentiment], by norm_num, ?_⟩
  intro hh
  rw [show classify_sentiment 3 0 (-1) = some "neg" from by norm_num [classify_sentiment]] at hh
  exact absurd (Option.some.inj hh) (by decide)

/-- C5 amended: for a nonnegative limit, the three-class mapping returns
neg exactly below minus the limit, pos exactly above the limit, and
neut exactly on the closed middle interval; in particular with the
source limit 0.05 a return of 0.10 is pos, minus 0.10 is neg, and zero
is neut. -/
theorem classify_three_class_boundary (cum limit : ℚ) (h : 0 ≤ limit) :
    (((classify_sentiment 3 cum limit = some "neg") ↔ cum < -limit) ∧
     ((classify_sentiment 3 cum limit = some "pos") ↔ limit < cum) ∧
     ((classify_sentiment 3 cum limit = some "neut") ↔ -limit ≤ cum ∧ cum ≤ limit)) ∧
    classify_sentiment 3 (10 / 100) LIMIT = some "pos" ∧
    classify_sentiment 3 (-(10 / 100)) LIMIT = some "neg" ∧
    classify_sentiment 3 0 LIMIT = some "neut" := by
  refine ⟨?_, by norm_num [classify_sentiment, LIMIT], by norm_num [classify_sentiment, LIMIT],
    by norm_num [classify_sentiment, LIMIT]⟩
  have hm : -1 * limit = -limit := by ring
  simp only [classify_sentiment, if_pos rfl, hm, gt_iff_lt]
  by_cases h1 : cum < -limit
  · have h2 : ¬limit < cum := by linarith
    rw [if_pos h1]
    refine ⟨by simp [h1], ?_, ?_⟩
    · constructor
      · intro hh; exact absurd (Option.some.inj hh) (by decide)
      · intro hh; exact absurd hh h2
    · constructor
      · intro hh; exact absurd (Option.some.inj hh) (by decide)
      · intro hh; exact absurd h1 (not_lt.mpr hh.1)
  · by_cases h2 : limit < cum
    · rw [if_neg h1, if_pos h2]
      refine ⟨?_, by simp [h2], ?_⟩
      · constructor
        · intro hh; exact absurd (Option.some.inj hh) (by decide)
        · intro hh; exact absurd hh h1
      · constructor
        · intro hh; exact absurd (Option.some.inj hh) (by decide)
        · intro hh; exact absurd h2 (not_lt.mpr hh.2)
    · rw [if_neg h1, if_neg h2]
      refine ⟨?_, ?_, by simp [not_lt.mp h1, not_lt.mp h2]⟩
      · constructor
        · intro hh; exact absurd (Option.some.inj hh) (by decide)
        · intro hh; exact absurd hh h1
      · constructor
        · intro hh; exact absurd (Option.some.inj hh) (by decide)
        · intro hh; exact absurd hh h2

/-- C5 witness: the amended boundary theorem applied at cumReturn 0.10
and the nonnegative limit 0.05. -/
theorem classify_three_class_boundary_witness :
    (0 : ℚ) ≤ 1 / 20 ∧
    ((((classify_sentiment 3 (1 / 10) (1 / 20) = some "neg") ↔ (1 / 10 : ℚ) < -(1 / 20)) ∧
      ((classify_sentiment 3 (1 / 10) (1 / 20) = some "pos") ↔ (1 / 20 : ℚ) < 1 / 10) ∧
      ((classify_sentiment 3 (1 / 10) (1 / 20) = some "neut") ↔
        -(1 / 20 : ℚ) ≤ 1 / 10 ∧ (1 / 10 : ℚ) ≤ 1 / 20)) ∧
     classify_sentiment 3 (10 / 100) LIMIT = some "pos" ∧
     classify_sentiment 3 (-(10 / 100)) LIMIT = some "neg" ∧
     classify_sentiment 3 0 LIMIT = some "neut") :=
  ⟨by norm_num, classify_three_class_boundary (1 / 10) (1 / 20) (by norm_num)⟩

/-- C10: clean_text fails, by dividing by the zero length of its input
in the trim-ratio check, exactly on the empty input; on every nonempty
input it returns a string. -/
theorem clean_text_none_iff_empty (er : String) :
    clean_text er = none ↔ er = "" := by
  obtain ⟨d⟩ := er
  constructor
  · intro h
    by_cases h0 : d.length = 0
    · rw [List.length_eq_zero.mp h0]
    · simp [clean_text, h0] at h
  · intro h
    rw [h]
    rfl

/-- C3 counterexample: with the corpus entry of a filing existing only
under the neut class-label subdirectory, a label the three-class
classifier produces, is_parsed returns false and parser_dir goes on to
reprocess the filing. -/
theorem is_parsed_misses_neut :
    neut_exists_fs
      (corpus_entry_path "corpra/10" "neut" (get_parsed_filename "ABC" "2013-01-15")) = true ∧
    classify_sentiment 3 0 LIMIT = some "neut" ∧
    is_parsed neut_exists_fs "corpra/10" (get_parsed_filename "ABC" "2013-01-15") = false ∧
    parser_dir_processes neut_exists_fs "corpra/10" "ABC" "2013-01-15" = true := by
  refine ⟨by decide, by norm_num [classify_sentiment, LIMIT], by decide, by decide⟩

/-- C3 amended: is_parsed returns true exactly when the corpus entry
file exists under the neg or the pos subdirectory; an entry under the
neut subdirectory is not covered by the guard. -/
theorem is_parsed_iff_neg_or_pos (fsExists : String → Bool) (corpora name : String) :
    is_parsed fsExists corpora name = true ↔
      (fsExists (corpus_entry_path corpora "neg" name) = true ∨
       fsExists (corpus_entry_path corpora "pos" name) = true) := by
  simp [is_parsed]

/-- C2 counterexample: the block of an opening parenthesis, an upper
case letter, a closing parenthesis and a newline is matched by the
TABLE HEADER1 predicate of the battery, yet clean_text_helper retains
it, because the match does not cover the trailing newline. -/
theorem clean_text_helper_retains_matched_block :
    clean_text_helper ("(A)\n").data = true ∧
    pySearch P_TABLE_HEADER1 "(A)\n" = true := by
  refine ⟨by decide, by decide⟩

/-- C2 amended: a block is retained by clean_text_helper exactly when no
pattern of the battery, substituting all of its matches by the empty
string, erases the whole block; a pattern that merely matches part of
the block does not cause the block to be dropped. -/
theorem clean_text_helper_retained_iff_no_covering_match (text : List Char) :
    clean_text_helper text = true ↔ ∀ p ∈ PATTERNS, pySubL p text ≠ [] := by
  simp [clean_text_helper, List.all_map, List.all_eq_true, Function.comp,
    List.length_eq_zero]

/-- C6 counterexample: discovery accepts a name that does not end with
the suffix -8-K.txt under any casing, and rejects a name that does end
with that suffix case-insensitively. -/
theorem filelistings_suffix_counterexample :
    (filelistings_entry "ABC-2013-8-K.txt.bak").isSome = true ∧
    spec_suffix_accepts "ABC-2013-8-K.txt.bak" = false ∧
    spec_suffix_accepts "ABC-2013-01-15-8-k.TXT" = true ∧
    filelistings_entry "ABC-2013-01-15-8-k.TXT" = none := by
  refine ⟨by decide, by decide, by decide, by decide⟩

/-- C6 amended: discovery accepts a name exactly when it contains the
case-sensitive substring 8-K.txt and the case-insensitive two-group
pattern matches a prefix of the name; the accepted example parses into
symbol ABC and date string 2013-01-15, a name without the suffix is
excluded, and any accepted name contains the case-sensitive
substring. -/
theorem filelistings_accept_characterization :
    filelistings_entry "ABC-2013-01-15-8-K.txt" = some ("ABC", "2013-01-15") ∧
    filelistings_entry "ABC-2013-01-15.txt" = none ∧
    filelistings_entry "ABC-2013-8-K.txt.bak" = some ("ABC", "2013") ∧
    ∀ name : String, (filelistings_entry name).isSome = true →
      containsStr name "8-K.txt" = true := by
  refine ⟨by decide, by decide, by decide, ?_⟩
  intro name h
  by_contra hc
  rw [filelistings_entry, if_neg ?_] at h
  · simp at h
  · simpa using hc

/-- Auxiliary: a string with a nonempty character list is not the empty
string literal. -/
theorem mk_ne_empty_of_length {d : List Char} (hd : d.length ≠ 0) :
    String.mk d ≠ "" := by
  intro h
  apply hd
  have : d = ("" : String).data := by rw [← h]
  simpa using this

/-- C1: on any nonempty input, clean_text returns a string that either
keeps at least trim_limit of the input length or is the input itself,
returned unchanged. -/
theorem clean_text_trim_invariant (er : String) (h : er ≠ "") :
    ∃ s, clean_text er = some s ∧
      (trim_limit * (er.length : ℚ) ≤ (s.length : ℚ) ∨ s = er) := by
  obtain ⟨d⟩ := er
  have hd : d.length ≠ 0 := by
    intro h0
    exact h (by rw [List.length_eq_zero.mp h0])
  unfold clean_text
  rw [if_neg hd]
  by_cases hc :
      trim_limit ≤ (((cleaned_blocks (String.mk d)).length : ℚ) / (d.length : ℚ))
  · refine ⟨String.mk (cleaned_blocks (String.mk d)), by rw [if_pos hc], Or.inl ?_⟩
    have hpos : (0 : ℚ) < (d.length : ℚ) := by
      exact_mod_cast Nat.pos_of_ne_zero hd
    exact (le_div_iff₀ hpos).mp hc
  · exact ⟨String.mk d, by rw [if_neg hc], Or.inr rfl⟩

/-- C1 witness: the trim invariant at a concrete nonempty input. -/
theorem clean_text_trim_invariant_witness :
    ("hello" : String) ≠ "" ∧
    ∃ s, clean_text "hello" = some s ∧
      (trim_limit * (("hello" : String).length : ℚ) ≤ (s.length : ℚ) ∨ s = "hello") :=
  ⟨by decide, clean_text_trim_invariant "hello" (by decide)⟩

/-- C7: on a stream made of an EX-99 marker line, a text-body open
marker line, three body lines, a close marker line and any further
lines, er_generator yields exactly the five lines from the open marker
to the close marker inclusive, independently of everything after the
close marker line. -/
theorem er_generator_window (l0 l1 b1 b2 b3 l5 : String) (rest : List String)
    (h0 : containsStr l0 "<TYPE>EX-99" = true)
    (h0t : containsStr l0 "<TEXT>" = false)
    (h0c : containsStr l0 "</TEXT>" = false)
    (h1 : containsStr l1 "<TEXT>" = true)
    (h1c : containsStr l1 "</TEXT>" = false)
    (hb1 : containsStr b1 "</TEXT>" = false)
    (hb2 : containsStr b2 "</TEXT>" = false)
    (hb3 : containsStr b3 "</TEXT>" = false)
    (h5 : containsStr l5 "</TEXT>" = true) :
    er_generator (l0 :: l1 :: b1 :: b2 :: b3 :: l5 :: rest) = [l1, b1, b2, b3, l5] := by
  simp [er_generator, erGenAux, h0, h0t, h0c, h1, h1c, hb1, hb2, hb3, h5]

/-- C7 witness: the window theorem at a concrete stream with two lines
after the close marker. -/
theorem er_generator_window_witness :
    containsStr "<TYPE>EX-99.1" "<TYPE>EX-99" = true ∧
    er_generator ["<TYPE>EX-99.1", "x<TEXT>", "alpha", "beta", "gamma", "y</TEXT>z",
        "tail1", "tail2"] =
      ["x<TEXT>", "alpha", "beta", "gamma", "y</TEXT>z"] :=
  ⟨by decide,
   er_generator_window "<TYPE>EX-99.1" "x<TEXT>" "alpha" "beta" "gamma" "y</TEXT>z"
     ["tail1", "tail2"] (by decide) (by decide) (by decide) (by decide) (by decide)
     (by decide) (by decide) (by decide) (by decide)⟩

/-- Auxiliary: with no EX-99 marker anywhere and the emitting flag set,
er_generator passes every remaining line through. -/
theorem erGenAux_no_marker_emitting (ls : List String)
    (hno : ∀ l ∈ ls, containsStr l "<TYPE>EX-99" = false) :
    erGenAux false true ls = ls := by
  induction ls with
  | nil => rfl
  | cons l ls ih =>
      have h0 : containsStr l "<TYPE>EX-99" = false := hno l (by simp)
      have ih2 := ih (fun x hx => hno x (by simp [hx]))
      simp [erGenAux, h0, ih2]

/-- Auxiliary: with no EX-99 marker anywhere, er_generator emits exactly
the suffix starting at the first line matched by the fallback pattern,
and never stops before the end of the stream. -/
theorem erGenAux_no_marker_drop (ls : List String)
    (hno : ∀ l ∈ ls, containsStr l "<TYPE>EX-99" = false) :
    erGenAux false false ls = ls.drop (ls.findIdx (fun l => erSearch l)) := by
  induction ls with
  | nil => rfl
  | cons l ls ih =>
      have h0 : containsStr l "<TYPE>EX-99" = false := hno l (by simp)
      have htail : ∀ x ∈ ls, containsStr x "<TYPE>EX-99" = false :=
        fun x hx => hno x (by simp [hx])
      rw [List.findIdx_cons]
      by_cases hs : erSearch l = true
      · simp [erGenAux, h0, hs, erGenAux_no_marker_emitting ls htail]
      · have hs2 : erSearch l = false := by
          cases hval : erSearch l
          · rfl
          · exact absurd hval hs
        simp [erGenAux, h0, hs2, ih htail]

/-- Auxiliary: the first index satisfying a predicate is at most any
index satisfying it. -/
theorem findIdx_le_of_get {alpha : Type} (p : alpha → Bool) :
    ∀ (l : List alpha) (i : Nat) (hi : i < l.length),
      p (l.get ⟨i, hi⟩) = true → l.findIdx p ≤ i := by
  intro l
  induction l with
  | nil => intro i hi; simp at hi
  | cons a l ih =>
      intro i hi hp
      rw [List.findIdx_cons]
      cases hpa : p a with
      | true => simp
      | false =>
          cases i with
          | zero => exact absurd hp (by simp [List.get, hpa])
          | succ j =>
              simp only [hpa, cond_false]
              exact Nat.succ_le_succ (ih j (by simpa using hi) (by simpa using hp))

/-- C8: on a stream with no EX-99 marker line at all, if some line
matches the fallback earnings-announcement pattern then er_generator
yields that line and every later line to the end of the stream,
close-marker lines included, never terminating early. -/
theorem er_generator_no_marker_suffix (lines : List String)
    (hno : ∀ l ∈ lines, containsStr l "<TYPE>EX-99" = false)
    (i : Nat) (hi : i < lines.length)
    (hm : erSearch (lines.get ⟨i, hi⟩) = true) :
    ∃ j, j ≤ i ∧ er_generator lines = lines.drop j :=
  ⟨lines.findIdx (fun l => erSearch l),
   findIdx_le_of_get (fun l => erSearch l) lines i hi hm,
   erGenAux_no_marker_drop lines hno⟩

/-- C8 witness: a concrete marker-free stream in which the second line
matches the fallback pattern; the output is the whole suffix from that
line, running through the close-marker line to the end. -/
theorem er_generator_no_marker_suffix_witness :
    ∃ j, j ≤ 1 ∧
      er_generator ["intro", "x announces a quarter y", "</TEXT>", "tail"] =
        List.drop j ["intro", "x announces a quarter y", "</TEXT>", "tail"] :=
  er_generator_no_marker_suffix
    ["intro", "x announces a quarter y", "</TEXT>", "tail"]
    (by decide) 1 (by decide) (by decide)

/-- Auxiliary telescoping of the compounded product of one plus the
period returns: over nonzero closes it equals the last close over the
first. -/
theorem prod_pct (rest : List ℚ) : ∀ p : ℚ, p ≠ 0 → (∀ q ∈ rest, q ≠ 0) →
    ((pct_change (p :: rest)).map (fun r => 1 + r)).prod =
      (p :: rest).getLast (List.cons_ne_nil p rest) / p := by
  induction rest with
  | nil =>
      intro p hp _
      simp [pct_change, div_self hp]
  | cons q rest ih =>
      intro p hp hq
      have hq0 : q ≠ 0 := hq q (by simp)
      have hrest : ∀ x ∈ rest, x ≠ 0 := fun x hx => hq x (by simp [hx])
      have hstep : pct_change (p :: q :: rest) = (q / p - 1) :: pct_change (q :: rest) := rfl
      rw [hstep, List.map_cons, List.prod_cons, ih q hq0 hrest,
        List.getLast_cons (List.cons_ne_nil q rest)]
      have h1 : 1 + (q / p - 1) = q / p := by ring
      rw [h1]
      field_simp
      ring

/-- C9: over a complete window of strictly positive closes, the
cumulative return computed by classify is the compounded product of one
plus each simple period return, minus one, which telescopes to the last
close over the first close minus one; it is not the arithmetic sum of
the daily returns, as the window one, two, four shows. -/
theorem cum_return_compounded (p : ℚ) (rest : List ℚ)
    (hpos : ∀ q ∈ p :: rest, 0 < q) (_hne : rest ≠ []) :
    cum_return (p :: rest) =
      (p :: rest).getLast (List.cons_ne_nil p rest) / p - 1 ∧
    cum_return [1, 2, 4] ≠ (pct_change [1, 2, 4]).sum := by
  constructor
  · have hp : p ≠ 0 := ne_of_gt (hpos p (by simp))
    have hq : ∀ q ∈ rest, q ≠ 0 := fun q hqq => ne_of_gt (hpos q (by simp [hqq]))
    rw [cum_return, prod_pct rest p hp hq]
  · norm_num [cum_return, pct_change]

/-- C9 witness: the compounded-return theorem at the positive window of
closes one, two, four, whose cumulative return is three while the sum
of its daily returns is two. -/
theorem cum_return_compounded_witness :
    (∀ q ∈ ([1, 2, 4] : List ℚ), 0 < q) ∧
    (cum_return (1 :: [2, 4]) =
        ((1 : ℚ) :: [2, 4]).getLast (List.cons_ne_nil 1 [2, 4]) / 1 - 1 ∧
      cum_return [1, 2, 4] ≠ (pct_change [1, 2, 4]).sum) :=
  ⟨by norm_num, cum_return_compounded 1 [2, 4] (by norm_num) (by simp)⟩
